import Mathlib

/-!
Verification of the quantized-operator frontend (`frontend/qnn_torch.py`).

This file gives a shallow embedding of the data model and the operations of
the frontend: the packed-parameter decoder (`unpack_quant_params`,
`QuantParam.__init__`), the quant-parameter registry
(`get_weight_quant_params`, `add_quant_params`), the producer resolver
(`get_quant_param_for_input`), the scalar-op output-parameter materializer
(`get_add_scalar_output_quant_param`, `add_output_quant_params_to_scalar_op`)
and the per-operator conversion functions (`_quantized_conv2d`,
`_add_scalar`, `quantize_scalar`, `_relu6`, and the `identity` used for
`quantized::mul_scalar`).

Modelling conventions:
  * Python floats are modelled as exact rationals (`ℚ`), Python ints as `ℤ`.
  * Python strings are modelled as `List Char` so that slicing and
    suffix tests are ordinary list operations.
  * Python exceptions are modelled by `Option`/`Except` results.
  * The emitted relay IR is modelled by the inductive type `RExpr`.
-/

/-- Python 3 `round`: round half to even (banker's rounding). -/
def pythonRound (q : ℚ) : ℤ :=
  if q - (⌊q⌋ : ℚ) < 1/2 then ⌊q⌋
  else if 1/2 < q - (⌊q⌋ : ℚ) then ⌊q⌋ + 1
  else if ⌊q⌋ % 2 = 0 then ⌊q⌋ else ⌊q⌋ + 1

/-- Embeds `get_add_scalar_output_quant_param(input_scale, input_zero_point,
scalar)` (source lines 105-125): computes the output `(scale, zero_point)` for a
`quantized::add_scalar` node, following aten's qadd.cpp.  `q_min = 0`,
`q_max = 255`; `c_q = round(c / s)`; the result depends on where `z - c_q`
falls relative to `[q_min, q_max]`. -/
def get_add_scalar_output_quant_param (input_scale : ℚ) (input_zero_point : ℤ)
    (scalar : ℚ) : ℚ × ℤ :=
  let q_min : ℤ := 0
  let q_max : ℤ := 255
  let s := input_scale
  let z := input_zero_point
  let c := scalar
  let c_q := pythonRound (c / s)
  if q_min > z - c_q then
    (((q_max : ℚ) - ((z - c_q : ℤ) : ℚ)) / ((q_max : ℚ) - (q_min : ℚ)) * s,
     q_min)
  else if q_max < z - c_q then
    ((((z - c_q : ℤ) : ℚ) - (q_min : ℚ)) / ((q_max : ℚ) - (q_min : ℚ)) * s,
     q_max)
  else
    (s, z - c_q)

/-- The `(out_scale, out_zero_point)` pair that
`add_output_quant_params_to_scalar_op` (source lines 128-153) computes and
inserts as constant nodes before the scalar op.  `none` models the
`assert False, "unsupported scalar op"` branch. -/
def add_output_quant_params_to_scalar_op (operator : String)
    (input_scale : ℚ) (input_zero_point : ℤ) (scalar : ℚ) :
    Option (ℚ × ℤ) :=
  if operator = "quantized::mul_scalar" then
    some (input_scale * scalar, input_zero_point)
  else if operator = "quantized::add_scalar" then
    some (get_add_scalar_output_quant_param input_scale input_zero_point scalar)
  else
    none

/-! ## Packed parameter decoder and quant parameter registry -/

/-- Python strings, modelled as lists of characters. -/
abbrev PStr := List Char

/-- Python slicing `s[:-n]`: all but the last `n` characters. -/
def pySliceDropLast (s : PStr) (n : Nat) : PStr := s.take (s.length - n)

/-- Python `s.endswith(sfx)`. -/
def pyEndsWith (s sfx : PStr) : Bool := sfx.isSuffixOf s

/-- Modelled `np.asscalar`: converts an array to a Python scalar; raises
(`none`) unless the array has exactly one element. -/
def np_asscalar {α : Type} (a : List α) : Option α :=
  match a with
  | [x] => some x
  | _ => none

/-- Quantization scheme of a packed weight tensor
(`torch.per_tensor_affine` vs the per-channel schemes). -/
inductive QScheme where
  | per_tensor_affine
  | per_channel_affine
deriving DecidableEq

/-- Model of the quantized weight tensor obtained from
`conv2d_unpack`/`linear_unpack`: its dequantized values, its scheme, and its
per-tensor (`q_scale`/`q_zero_point`) resp. per-channel
(`q_per_channel_scales`/`q_per_channel_zero_points`) quantization data. -/
structure QTensorModel where
  values : List ℚ
  qscheme : QScheme
  q_scale : ℚ
  q_zero_point : ℤ
  q_per_channel_scales : List ℚ
  q_per_channel_zero_points : List ℤ
deriving DecidableEq

/-- Model of a packed parameter blob after unpacking: the quantized weight
and the optional bias.  The two unpack strategies (`conv2d_unpack` with
`linear_unpack` as the `except:` fallback) differ only in blob layout, so the
model records their common result. -/
structure PackedParamsModel where
  qweight : QTensorModel
  bias : Option (List ℚ)
deriving DecidableEq

/-- Embeds `QuantParam.__init__` (source lines 11-28).  The weight variable is
named `param_key[:-len("._packed_params")] + "_weight"` (the stripped suffix
has 15 characters), the bias variable likewise with `"_bias"`; `scale` and
`zero_point` are forced through `np.asscalar`, so construction fails (`none`)
whenever the given scale/zero-point arrays do not have exactly one element. -/
structure QuantParam where
  weight_var : PStr
  weight : List ℚ
  bias_var : Option PStr
  bias : Option (List ℚ)
  scale : ℚ
  zero_point : ℤ
deriving DecidableEq

def QuantParam.init (weight : List ℚ) (bias : Option (List ℚ))
    (scale : List ℚ) (zero_point : List ℤ) (param_key : PStr) :
    Option QuantParam :=
  let param_pfx := pySliceDropLast param_key ("._packed_params".toList.length)
  match np_asscalar scale, np_asscalar zero_point with
  | some s, some z =>
      some { weight_var := param_pfx ++ "_weight".toList
             weight := weight
             bias_var := bias.map (fun _ => param_pfx ++ "_bias".toList)
             bias := bias
             scale := s
             zero_point := z }
  | _, _ => none

/-- Embeds `unpack_quant_params` (source lines 31-49): dequantizes the weight
and builds a `QuantParam`, wrapping per-tensor scale/zero-point into
one-element arrays and passing the per-channel arrays through unchanged. -/
def unpack_quant_params (param_name : PStr) (packed_params : PackedParamsModel) :
    Option QuantParam :=
  let qweight := packed_params.qweight
  let weight_np := qweight.values
  if qweight.qscheme = QScheme.per_tensor_affine then
    QuantParam.init weight_np packed_params.bias
      [qweight.q_scale] [qweight.q_zero_point] param_name
  else
    QuantParam.init weight_np packed_params.bias
      qweight.q_per_channel_scales qweight.q_per_channel_zero_points param_name

/-- Embeds `get_weight_quant_params` (source lines 52-57): scans the state
dict and decodes every entry whose key ends in `"_packed_params"`.  A decode
failure propagates (the Python exception aborts the whole scan). -/
def get_weight_quant_params
    (state_dict : List (PStr × PackedParamsModel)) :
    Option (List (PStr × QuantParam)) :=
  match state_dict with
  | [] => some []
  | (key, value) :: rest =>
    if pyEndsWith key "_packed_params".toList then
      match unpack_quant_params key value, get_weight_quant_params rest with
      | some qp, some r => some ((key, qp) :: r)
      | _, _ => none
    else
      get_weight_quant_params rest

/-- Embeds `add_quant_params` (source lines 222-226): the sequence of
`(key, tensor)` assignments performed against the output parameter table, in
order — the weight under `weight_var` and, when a bias is present, the bias
under `bias_var`. -/
def add_quant_params (quant_params : List (PStr × QuantParam)) :
    List (PStr × List ℚ) :=
  quant_params.foldr
    (fun kv acc =>
      let qparam := kv.2
      match qparam.bias with
      | some b => (qparam.weight_var, qparam.weight) ::
                  (qparam.bias_var.getD [], b) :: acc
      | none => (qparam.weight_var, qparam.weight) :: acc)
    []

/-! ## The emitted relay IR -/

/-- Relay expressions emitted by the conversion functions.  Numeric operands
that the source passes as `_expr.const(...)` appear as `qconst`/`iconst`
leaves; `clip` bounds and the `pad` value are plain Python numbers in the
source and stay plain numbers here.  `axis` is `1` where the source passes
`axis=1`, `-1` for relay's default when no axis is passed.  The
`concatenate` node emitted only by `_cat` is not modelled: no verified
property mentions it. -/
inductive RExpr where
  | evar (name : String)
  | qconst (v : ℚ)
  | iconst (v : ℤ)
  | tupleGetItem (t : RExpr) (idx : Nat)
  | quantize (data scale zero_point : RExpr) (axis : ℤ) (out_dtype : String)
  | dequantize (data scale zero_point : RExpr)
  | requantize (data input_scale input_zero_point output_scale
      output_zero_point : RExpr) (out_dtype : String) (axis : ℤ)
  | qconv2d (data weight input_zero_point weight_zero_point input_scale
      weight_scale : RExpr) (kernel_size dilation strides padding : Nat × Nat)
      (groups : Nat) (channels : Nat)
  | qdense (data weight input_zero_point weight_zero_point input_scale
      weight_scale : RExpr)
  | biasAdd (data bias : RExpr)
  | pad (data : RExpr) (pad_width : List (Nat × Nat)) (pad_value : ℚ)
  | clip (data : RExpr) (a_min a_max : ℚ)
  | cast (data : RExpr) (dtype : String)
  | add (lhs rhs : RExpr)
  | mul (lhs rhs : RExpr)
  | relu (data : RExpr)
deriving DecidableEq

/-- Embeds `get_scalar` (source lines 263-264): reads the numeric value out
of a relay constant.  Non-constant arguments would raise in the source and
never occur in the conversions below; they are mapped to `0`. -/
def get_scalar : RExpr → ℚ
  | .qconst v => v
  | .iconst v => (v : ℚ)
  | _ => 0

/-! ## Conversion of quantized conv2d -/

/-- Inputs of a materialized `quantized::conv2d` / `quantized::conv2d_relu`
node as consumed by `_quantized_conv2d` (source lines 267-347):
`inputs[0]` data, `inputs[1]` the unpacked `(weight, scale, zero_point,
bias)` tuple, `inputs[2-5]` stride/padding/dilation (after `infer_shape`)
and groups, `inputs[6-7]` output quant params, `inputs[8-9]` the input quant
params appended by the materializer.  `weight_shape` is `infer_shape(weight)`
`= (out_channels, in_channels, kh, kw)`. -/
structure ConvInputs where
  data : RExpr
  weight : RExpr
  weight_scale : RExpr
  weight_zero_point : RExpr
  bias_var : Option RExpr
  strides : Nat × Nat
  padding : Nat × Nat
  dilation : Nat × Nat
  groups : Nat
  output_scale : ℚ
  output_zero_point : ℤ
  input_scale : ℚ
  input_zero_point : ℤ
  weight_shape : Nat × Nat × Nat × Nat
deriving DecidableEq

/-- Embeds the body of `_quantized_conv2d(with_relu)._impl` (source lines
267-347): optional zero-point-valued padding, affine convolution, bias
quantized into the accumulator scale, requantization to the declared output
params, clip (lower bound raised to the output zero-point when a ReLU is
fused) and cast to `uint8`. -/
def quantized_conv2d_impl (with_relu : Bool) (I : ConvInputs) : RExpr :=
  let output_scale := RExpr.qconst I.output_scale
  let output_zero_point := RExpr.iconst I.output_zero_point
  let input_scale := RExpr.qconst I.input_scale
  let input_zero_point := RExpr.iconst I.input_zero_point
  let kernel_size : Nat × Nat := (I.weight_shape.2.2.1, I.weight_shape.2.2.2)
  let out_channels : Nat := I.weight_shape.1
  let inp : RExpr :=
    if I.padding.1 ≠ 0 ∨ I.padding.2 ≠ 0 then
      RExpr.pad I.data
        [(0, 0), (0, 0), (I.padding.1, I.padding.1), (I.padding.2, I.padding.2)]
        ((I.input_zero_point : ℚ))
    else
      I.data
  let conv_out := RExpr.qconv2d inp I.weight input_zero_point
    I.weight_zero_point input_scale I.weight_scale kernel_size I.dilation
    I.strides (0, 0) I.groups out_channels
  let requant_input_scale :=
    RExpr.qconst (I.input_scale * get_scalar I.weight_scale)
  let conv_res : RExpr :=
    match I.bias_var with
    | some bias_var =>
        RExpr.biasAdd conv_out
          (RExpr.quantize bias_var requant_input_scale (RExpr.iconst 0)
            (-1) "int32")
    | none => conv_out
  let requantized := RExpr.requantize conv_res requant_input_scale
    (RExpr.iconst 0) output_scale output_zero_point "int32" 1
  let clip_min : ℚ := if with_relu then (I.output_zero_point : ℚ) else 0
  RExpr.cast (RExpr.clip requantized clip_min 255) "uint8"

/-! ## Conversion of scalar ops and relu6 -/

/-- Inputs of a materialized scalar op (`quantized::add_scalar` /
`quantized::mul_scalar`) as consumed by `_add_scalar` resp. `identity`:
`inputs[0]` data, `inputs[1]` the scalar, `inputs[2-3]` the output quant
params appended by `add_output_quant_params_to_scalar_op`, `inputs[4-5]` the
input quant params appended by the materializer (`len(inputs) == 6`). -/
structure ScalarOpInputs where
  data : RExpr
  scalar : ℚ
  out_scale : ℚ
  out_zero_point : ℤ
  input_scale : ℚ
  input_zero_point : ℤ
deriving DecidableEq

/-- Embeds `_add_scalar()._impl` (source lines 450-474): when the shift
`z - c_q` falls outside `[0, 255]`, emit
`quantize(dequantize(data, s, z) + const(c_q * s), out_scale, out_zp)`;
otherwise return the input unchanged (only the descriptor scale changes). -/
def add_scalar_impl (I : ScalarOpInputs) : RExpr :=
  let s := I.input_scale
  let z := I.input_zero_point
  let c := I.scalar
  let c_q := pythonRound (c / s)
  let q_min : ℤ := 0
  let q_max : ℤ := 255
  let out_scale := RExpr.qconst I.out_scale
  let out_zp := RExpr.iconst I.out_zero_point
  if q_min > z - c_q ∨ q_max < z - c_q then
    let dequant := RExpr.dequantize I.data (RExpr.qconst s) (RExpr.iconst z)
    let dequantized_add := RExpr.add dequant (RExpr.qconst ((c_q : ℚ) * s))
    RExpr.quantize dequantized_add out_scale out_zp 1 "uint8"
  else
    I.data

/-- Modelled from the spec: `identity` is imported from a `util` module that
is not part of the source tree; the spec states the `quantized::mul_scalar`
conversion is a pure rescale, "value unchanged, only scale changes", so its
converter returns the input tensor unchanged. -/
def identity_impl (I : ScalarOpInputs) : RExpr := I.data

/-- Embeds `quantize_scalar` (source lines 477-480):
`max(0, min(round(zero_point + data / scale), 255))`. -/
def quantize_scalar (data : ℚ) (scale : ℚ) (zero_point : ℤ) : ℤ :=
  max 0 (min (pythonRound ((zero_point : ℚ) + data / scale)) 255)

/-- Inputs of a materialized `quantized::relu6` node as consumed by
`_relu6` (source lines 483-490): `inputs[0]` data, `inputs[1]` the unused
`inplace` flag, `inputs[2-3]` the input quant params appended by the
materializer (`len(inputs) == 4`). -/
structure Relu6Inputs where
  data : RExpr
  inplace : Bool
  input_scale : ℚ
  input_zero_point : ℤ
deriving DecidableEq

/-- Embeds `_relu6()._impl` (source lines 483-490): quantize the literal
bound `6.0` with the input's own quant params and clip the input between the
input zero-point and that bound. -/
def relu6_impl (I : Relu6Inputs) : RExpr :=
  let six := quantize_scalar 6 I.input_scale I.input_zero_point
  RExpr.clip I.data ((I.input_zero_point : ℚ)) ((six : ℚ))

/-! ## Producer resolver -/

/-- Trace-graph nodes, as seen by `get_quant_param_for_input`: an operator
kind and the ordered producing nodes of its input values (`inputsAt(i).node()`
is `inputs.get? i`). -/
inductive TNode : Type where
  | mk (kind : String) (inputs : List TNode)

def TNode.kind : TNode → String
  | .mk k _ => k

def TNode.inputs : TNode → List TNode
  | .mk _ ins => ins

/-- The static table `output_quant_param_indices` of
`get_quant_param_for_input` (source lines 72-85): operator kind → index pair
of that operator's own output scale / zero-point operands. -/
def output_quant_param_indices (op : String) : Option (Nat × Nat) :=
  List.lookup op
    [("aten::quantize_per_tensor", (1, 2)),
     ("quantized::conv2d", (6, 7)),
     ("quantized::conv2d_relu", (6, 7)),
     ("quantized::linear", (2, 3)),
     ("quantized::linear_relu", (2, 3)),
     ("quantized::add_relu", (2, 3)),
     ("quantized::add", (2, 3)),
     ("quantized::mul_relu", (2, 3)),
     ("quantized::mul", (2, 3)),
     ("quantized::cat", (2, 3)),
     ("quantized::mul_scalar", (2, 3)),
     ("quantized::add_scalar", (2, 3))]

/-- Embeds the inner `dfs` of `get_quant_param_for_input` (source lines
87-101).  If the node's kind is in the table, return its scale / zero-point
operands (an out-of-range `inputsAt` would raise, modelled as an error);
otherwise recurse into the node's first input only (`for arg ...: return`
returns on the first iteration); a node with no inputs reaches the
`assert False, "No producer"`. -/
def resolveScaleZp (ins : List TNode) (i j : Nat) :
    Except String (TNode × TNode) :=
  match ins.get? i, ins.get? j with
  | some scale, some zp => .ok (scale, zp)
  | _, _ => .error "IndexError"

def get_quant_param_for_input : TNode → Except String (TNode × TNode)
  | .mk k [] =>
    match output_quant_param_indices k with
    | some ij => resolveScaleZp [] ij.1 ij.2
    | none => .error "No producer"
  | .mk k (arg :: rest) =>
    match output_quant_param_indices k with
    | some ij => resolveScaleZp (arg :: rest) ij.1 ij.2
    | none => get_quant_param_for_input arg

/-- True when no node along the maximal first-input chain starting at `n`
has its operator kind in the resolver's lookup table. -/
def noRecognizedAncestor : TNode → Bool
  | .mk k [] => (output_quant_param_indices k).isNone
  | .mk k (arg :: _) =>
    (output_quant_param_indices k).isNone && noRecognizedAncestor arg

/-! ## Concrete instances used by the claim witnesses -/

/-- Extraction helper: the data argument fed into the affine convolution of
a converted conv2d node (walking `cast(clip(requantize(...)))` down through
the optional `bias_add`). -/
def conv2d_data_arg : RExpr → Option RExpr
  | .cast (.clip (.requantize res _ _ _ _ _ _) _ _) _ =>
    match res with
    | .biasAdd (.qconv2d d _ _ _ _ _ _ _ _ _ _ _) _ => some d
    | .qconv2d d _ _ _ _ _ _ _ _ _ _ _ => some d
    | _ => none
  | _ => none

/-- Failing input for C2: a per-channel packed blob with two output channels
(two per-channel scales / zero-points). -/
def perChannelBlob : PackedParamsModel :=
  { qweight :=
      { values := [1, 2]
        qscheme := QScheme.per_channel_affine
        q_scale := 1
        q_zero_point := 0
        q_per_channel_scales := [1/2, 1/4]
        q_per_channel_zero_points := [0, 0] }
    bias := none }

/-- A per-tensor packed blob with scale `1/2` and zero-point `3`. -/
def perTensorBlob : PackedParamsModel :=
  { qweight :=
      { values := [1, 2]
        qscheme := QScheme.per_tensor_affine
        q_scale := 1/2
        q_zero_point := 3
        q_per_channel_scales := []
        q_per_channel_zero_points := [] }
    bias := none }

/-- A per-tensor packed blob carrying a bias, for exercising the
registry-handle claim. -/
def biasBlob : PackedParamsModel :=
  { qweight :=
      { values := [4, 5]
        qscheme := QScheme.per_tensor_affine
        q_scale := 1/4
        q_zero_point := 0
        q_per_channel_scales := []
        q_per_channel_zero_points := [] }
    bias := some [7] }

/-- The decoded record for `biasBlob` under key `"conv1._packed_params"`. -/
def biasBlobQP : QuantParam :=
  { weight_var := "conv1_weight".toList
    weight := [4, 5]
    bias_var := some "conv1_bias".toList
    bias := some [7]
    scale := 1/4
    zero_point := 0 }

/-- Inputs of a concrete `quantized::conv2d` producer node: operands 6 and 7
are its output scale / zero-point constants. -/
def convResolveIns : List TNode :=
  [TNode.mk "a" [], TNode.mk "b" [], TNode.mk "c" [], TNode.mk "d" [],
   TNode.mk "e" [], TNode.mk "f" [], TNode.mk "scale_const" [],
   TNode.mk "zp_const" []]

/-- A concrete recognized producer node. -/
def convProducer : TNode := TNode.mk "quantized::conv2d" convResolveIns

/-- Concrete conv2d inputs with padding `(1, 1)` and input zero-point 128. -/
def convInpPad : ConvInputs :=
  { data := RExpr.evar "x"
    weight := RExpr.evar "w"
    weight_scale := RExpr.qconst (1/4)
    weight_zero_point := RExpr.iconst 0
    bias_var := none
    strides := (1, 1)
    padding := (1, 1)
    dilation := (1, 1)
    groups := 1
    output_scale := 1
    output_zero_point := 0
    input_scale := 1/2
    input_zero_point := 128
    weight_shape := (8, 3, 3, 3) }

/-- The same conv2d inputs with zero padding. -/
def convInpNoPad : ConvInputs := { convInpPad with padding := (0, 0) }

/-! ## Claims -/

/-- C4: for every positive input scale `s`, integer input zero-point `z` and
positive scalar `c`, with `c_q = round(c / s)`: if `z - c_q < 0` the
materializer returns `out_scale = (255 - (z - c_q)) / 255 * s` and
`out_zero_point = 0`; if `z - c_q > 255` it returns
`out_scale = ((z - c_q) - 0) / 255 * s` and `out_zero_point = 255`;
otherwise it returns `out_scale = s` and `out_zero_point = z - c_q`. -/
theorem claim_C4_add_scalar_quant_param_formula
    (s : ℚ) (z : ℤ) (c : ℚ) (hs : 0 < s) (hc : 0 < c) :
    (z - pythonRound (c / s) < 0 →
      get_add_scalar_output_quant_param s z c =
        ((255 - ((z - pythonRound (c / s) : ℤ) : ℚ)) / 255 * s, 0)) ∧
    (255 < z - pythonRound (c / s) →
      get_add_scalar_output_quant_param s z c =
        ((((z - pythonRound (c / s) : ℤ) : ℚ) - 0) / 255 * s, 255)) ∧
    (0 ≤ z - pythonRound (c / s) → z - pythonRound (c / s) ≤ 255 →
      get_add_scalar_output_quant_param s z c =
        (s, z - pythonRound (c / s))) := by
  unfold get_add_scalar_output_quant_param
  refine ⟨fun h => ?_, fun h => ?_, fun h0 h255 => ?_⟩
  · rw [if_pos (by omega)]
    push_cast
    norm_num
  · rw [if_neg (by omega), if_pos (by omega)]
    push_cast
    norm_num
  · rw [if_neg (by omega), if_neg (by omega)]

/-- Witness for C4 at the spec's scenario `s = 1/10`, `z = 250`, `c = 30`
(`c_q = 300`, `z - c_q = -50 < 0`). -/
theorem claim_C4_add_scalar_quant_param_formula_witness :
    get_add_scalar_output_quant_param (1/10) 250 30 =
      ((255 - ((250 - pythonRound ((30 : ℚ) / (1/10)) : ℤ) : ℚ)) / 255 * (1/10),
       0) :=
  (claim_C4_add_scalar_quant_param_formula (1/10) 250 30 (by norm_num)
    (by norm_num)).1 (by norm_num [pythonRound])

/-- Helper: the scale computed by `get_add_scalar_output_quant_param` is
positive whenever the input scale is. -/
lemma add_scalar_out_scale_pos (s : ℚ) (z : ℤ) (c : ℚ) (hs : 0 < s) :
    0 < (get_add_scalar_output_quant_param s z c).1 := by
  simp only [get_add_scalar_output_quant_param]
  split
  · rename_i h
    have hk : ((z - pythonRound (c / s) : ℤ) : ℚ) < 0 := by exact_mod_cast h
    have : (0 : ℚ) < ((255 : ℤ) : ℚ) - ((z - pythonRound (c / s) : ℤ) : ℚ) := by
      push_cast at hk ⊢
      linarith
    simp only
    apply mul_pos (div_pos this (by push_cast; norm_num)) hs
  · split
    · rename_i h
      have hk : (255 : ℚ) < ((z - pythonRound (c / s) : ℤ) : ℚ) := by
        exact_mod_cast h
      have : (0 : ℚ) < ((z - pythonRound (c / s) : ℤ) : ℚ) - ((0 : ℤ) : ℚ) := by
        push_cast at hk ⊢
        linarith
      simp only
      apply mul_pos (div_pos this (by push_cast; norm_num)) hs
    · simpa using hs

/-- C10: for every positive input scale and positive scalar, whenever the
scalar-op materializer computes output quantization parameters (for
`quantized::mul_scalar` or `quantized::add_scalar`), the computed output
scale is strictly positive. -/
theorem claim_C10_scalar_op_out_scale_pos (op : String) (s : ℚ) (z : ℤ)
    (c : ℚ) (s_out : ℚ) (z_out : ℤ) (hs : 0 < s) (hc : 0 < c)
    (h : add_output_quant_params_to_scalar_op op s z c = some (s_out, z_out)) :
    0 < s_out := by
  unfold add_output_quant_params_to_scalar_op at h
  split at h
  · rw [Option.some_inj] at h
    have : s_out = s * c := congrArg Prod.fst h.symm
    rw [this]
    exact mul_pos hs hc
  · split at h
    · rw [Option.some_inj] at h
      have : s_out = (get_add_scalar_output_quant_param s z c).1 :=
        congrArg Prod.fst h.symm
      rw [this]
      exact add_scalar_out_scale_pos s z c hs
    · exact absurd h (by simp)

/-- Witness for C10 on the out-of-range `add_scalar` branch:
`s = 1/10`, `z = 250`, `c = 30`. -/
theorem claim_C10_scalar_op_out_scale_pos_witness :
    0 < (305 / 255 * (1/10) : ℚ) :=
  claim_C10_scalar_op_out_scale_pos "quantized::add_scalar" (1/10) 250 30
    (305 / 255 * (1/10)) 0 (by norm_num) (by norm_num)
    (by
      unfold add_output_quant_params_to_scalar_op
      rw [if_neg (by decide), if_pos rfl]
      norm_num [get_add_scalar_output_quant_param, pythonRound])

/-- C6: for every positive input scale, input zero-point in `[0, 255]` and
positive scalar, the output zero-point computed for `quantized::add_scalar`
lies in `[0, 255]`; and whenever the naive shift `z - c_q` already lies in
`[0, 255]`, the `_add_scalar` conversion returns the input value unchanged
(no arithmetic emitted). -/
theorem claim_C6_add_scalar_invariants (s : ℚ) (z : ℤ) (c : ℚ)
    (hs : 0 < s) (hz0 : 0 ≤ z) (hz255 : z ≤ 255) (hc : 0 < c) :
    (0 ≤ (get_add_scalar_output_quant_param s z c).2 ∧
      (get_add_scalar_output_quant_param s z c).2 ≤ 255) ∧
    (∀ (data : RExpr) (o_s : ℚ) (o_z : ℤ),
      0 ≤ z - pythonRound (c / s) → z - pythonRound (c / s) ≤ 255 →
      add_scalar_impl ⟨data, c, o_s, o_z, s, z⟩ = data) := by
  constructor
  · simp only [get_add_scalar_output_quant_param]
    split
    · simp
    · split
      · simp
      · rename_i h1 h2
        simp only
        omega
  · intro data o_s o_z h0 h255
    simp only [add_scalar_impl]
    rw [if_neg (by omega)]

/-- Witness for C6 at the spec's scenario `s = 1/10`, `z = 250`, `c = 3`
(`c_q = 30`, shift `220` in range): zero-point bounds hold and the
conversion is the identity on the value. -/
theorem claim_C6_add_scalar_invariants_witness :
    (0 ≤ (get_add_scalar_output_quant_param (1/10) 250 3).2 ∧
      (get_add_scalar_output_quant_param (1/10) 250 3).2 ≤ 255) ∧
    add_scalar_impl ⟨RExpr.evar "x", 3, 1/10, 220, 1/10, 250⟩ =
      RExpr.evar "x" :=
  ⟨(claim_C6_add_scalar_invariants (1/10) 250 3 (by norm_num) (by norm_num)
      (by norm_num) (by norm_num)).1,
   (claim_C6_add_scalar_invariants (1/10) 250 3 (by norm_num) (by norm_num)
      (by norm_num) (by norm_num)).2 (RExpr.evar "x") (1/10) 220
      (by norm_num [pythonRound]) (by norm_num [pythonRound])⟩

/-- C5: for every positive scalar and every input scale and zero-point, the
`quantized::mul_scalar` materialization produces
`out_scale = in_scale * scalar` exactly and `out_zero_point` equal to the
input zero-point, and the `quantized::mul_scalar` conversion (`identity`)
leaves the tensor value unchanged. -/
theorem claim_C5_mul_scalar_pure_rescale (s : ℚ) (z : ℤ) (c : ℚ)
    (hc : 0 < c) :
    add_output_quant_params_to_scalar_op "quantized::mul_scalar" s z c =
      some (s * c, z) ∧
    (∀ I : ScalarOpInputs, identity_impl I = I.data) := by
  refine ⟨?_, fun I => rfl⟩
  unfold add_output_quant_params_to_scalar_op
  rw [if_pos rfl]

/-- Witness for C5 at `s = 1/10`, `z = 5`, `c = 3`. -/
theorem claim_C5_mul_scalar_pure_rescale_witness :
    add_output_quant_params_to_scalar_op "quantized::mul_scalar" (1/10) 5 3 =
      some ((1/10) * 3, 5) ∧
    identity_impl ⟨RExpr.evar "x", 3, 3/10, 5, 1/10, 5⟩ = RExpr.evar "x" :=
  ⟨(claim_C5_mul_scalar_pure_rescale (1/10) 5 3 (by norm_num)).1,
   (claim_C5_mul_scalar_pure_rescale (1/10) 5 3 (by norm_num)).2 _⟩

/-- Counterexample to C1 as stated: at `s = 3/10`, `z = 0`, `scalar = 100`
(so `c_q = round(1000/3) = 333` and `z - c_q = -333 < 0`), the emitted
computation adds `c_q * s = 999/10`, not the real scalar `100`. -/
theorem claim_C1_counterexample :
    add_scalar_impl ⟨RExpr.evar "x", 100, 1, 0, 3/10, 0⟩ ≠
      RExpr.quantize
        (RExpr.add
          (RExpr.dequantize (RExpr.evar "x") (RExpr.qconst (3/10))
            (RExpr.iconst 0))
          (RExpr.qconst 100))
        (RExpr.qconst 1) (RExpr.iconst 0) 1 "uint8" := by
  have hr : pythonRound ((100 : ℚ) / (3/10)) = 333 := by
    norm_num [pythonRound]
  simp only [add_scalar_impl, hr]
  rw [if_pos (by omega)]
  intro h
  injection h with h1 h2
  injection h1 with h3 h4
  injection h4 with h5
  norm_num at h5

/-- C1 amended: for the scalar-add conversion, whenever the zero-point shift
`z - c_q` falls outside `[0, 255]`, the emitted computation dequantizes the
input with its input scale and zero-point, adds `c_q * in_scale` — the
scalar rounded to the nearest integer multiple of the input scale, where
`c_q = round(scalar / in_scale)` — and requantizes to the declared output
scale and zero-point. -/
theorem claim_C1_add_scalar_out_of_range_emission
    (data : RExpr) (c o_s : ℚ) (o_z : ℤ) (s : ℚ) (z : ℤ)
    (h : 0 > z - pythonRound (c / s) ∨ 255 < z - pythonRound (c / s)) :
    add_scalar_impl ⟨data, c, o_s, o_z, s, z⟩ =
      RExpr.quantize
        (RExpr.add
          (RExpr.dequantize data (RExpr.qconst s) (RExpr.iconst z))
          (RExpr.qconst ((pythonRound (c / s) : ℚ) * s)))
        (RExpr.qconst o_s) (RExpr.iconst o_z) 1 "uint8" := by
  simp only [add_scalar_impl]
  rw [if_pos h]

/-- Witness for the amended C1 at `s = 3/10`, `z = 0`, `scalar = 100`. -/
theorem claim_C1_add_scalar_out_of_range_emission_witness :
    add_scalar_impl ⟨RExpr.evar "x", 100, 1, 0, 3/10, 0⟩ =
      RExpr.quantize
        (RExpr.add
          (RExpr.dequantize (RExpr.evar "x") (RExpr.qconst (3/10))
            (RExpr.iconst 0))
          (RExpr.qconst ((pythonRound ((100 : ℚ) / (3/10)) : ℚ) * (3/10))))
        (RExpr.qconst 1) (RExpr.iconst 0) 1 "uint8" :=
  claim_C1_add_scalar_out_of_range_emission (RExpr.evar "x") 100 1 0 (3/10) 0
    (by norm_num [pythonRound])

/-- C2 (code bug): the decoder distinguishes the schemes, but
`QuantParam.__init__` forces `scale`/`zero_point` through `np.asscalar`, so a
per-channel blob with two output channels cannot be decoded at all — no
`QuantParam` with vector `scale`/`zero_point` is ever produced — while the
per-tensor path stores the scalar pair as the claim describes. -/
theorem claim_C2_decoder_per_channel_broken :
    unpack_quant_params "w._packed_params".toList perChannelBlob = none ∧
    unpack_quant_params "w._packed_params".toList perTensorBlob =
      some { weight_var := "w_weight".toList
             weight := [1, 2]
             bias_var := none
             bias := none
             scale := 1/2
             zero_point := 3 } := by
  exact ⟨rfl, rfl⟩

/-- Helper: Python slicing `[:-n]` strips an appended suffix of length `n`. -/
lemma pySliceDropLast_append (pfx sfx : PStr) :
    pySliceDropLast (pfx ++ sfx) sfx.length = pfx := by
  unfold pySliceDropLast
  rw [List.length_append, Nat.add_sub_cancel, List.take_left]

/-- Helper: a key of the form `pfx ++ "._packed_params"` ends with
`"_packed_params"`. -/
lemma pyEndsWith_packed (pfx : PStr) :
    pyEndsWith (pfx ++ "._packed_params".toList) "_packed_params".toList =
      true := by
  unfold pyEndsWith
  rw [List.isSuffixOf_iff_suffix]
  have h : pfx ++ "._packed_params".toList =
      (pfx ++ ['.']) ++ "_packed_params".toList := by
    rw [List.append_assoc]
    rfl
  rw [h]
  exact List.suffix_append _ _

/-- Helper: a successful decode names its symbolic handles from the key with
the last 15 characters (the length of `"._packed_params"`) stripped. -/
lemma unpack_quant_params_handles (name : PStr) (blob : PackedParamsModel)
    (qp : QuantParam) (h : unpack_quant_params name blob = some qp) :
    qp.weight_var = pySliceDropLast name 15 ++ "_weight".toList ∧
    qp.bias_var =
      blob.bias.map (fun _ => pySliceDropLast name 15 ++ "_bias".toList) ∧
    qp.bias = blob.bias ∧
    qp.weight = blob.qweight.values := by
  have hlen : ("._packed_params".toList).length = 15 := rfl
  simp only [unpack_quant_params, QuantParam.init, hlen] at h
  split at h <;>
  · split at h
    · rw [Option.some_inj] at h
      subst h
      exact ⟨rfl, rfl, rfl, rfl⟩
    · exact absurd h (by simp)

/-- C3: every parameter-store key of the form
`pfx ++ "._packed_params"` is decoded by the registry scan, and the symbolic
handles written into the output parameter table are `pfx ++ "_weight"` and,
when a bias is present, `pfx ++ "_bias"` — the key with the packed suffix
stripped and `_weight`/`_bias` appended. -/
theorem claim_C3_registry_symbolic_handles (pfx : PStr)
    (blob : PackedParamsModel) (qp : QuantParam)
    (h : unpack_quant_params (pfx ++ "._packed_params".toList) blob =
      some qp) :
    get_weight_quant_params [(pfx ++ "._packed_params".toList, blob)] =
      some [(pfx ++ "._packed_params".toList, qp)] ∧
    qp.weight_var = pfx ++ "_weight".toList ∧
    (blob.bias.isSome → qp.bias_var = some (pfx ++ "_bias".toList)) ∧
    (add_quant_params [(pfx ++ "._packed_params".toList, qp)]).map Prod.fst =
      (pfx ++ "_weight".toList) ::
        (if blob.bias.isSome then [pfx ++ "_bias".toList] else []) := by
  obtain ⟨hw, hbv, hb, -⟩ := unpack_quant_params_handles _ _ _ h
  have hdrop : pySliceDropLast (pfx ++ "._packed_params".toList) 15 = pfx := by
    have hlen : ("._packed_params".toList).length = 15 := rfl
    rw [← hlen]
    exact pySliceDropLast_append pfx _
  rw [hdrop] at hw hbv
  refine ⟨?_, hw, ?_, ?_⟩
  · unfold get_weight_quant_params
    rw [pyEndsWith_packed]
    simp only [if_true, h]
    rfl
  · intro hsome
    obtain ⟨b, hb2⟩ := Option.isSome_iff_exists.mp hsome
    rw [hbv, hb2]
    rfl
  · unfold add_quant_params
    cases hbb : blob.bias with
    | none =>
      rw [hbb] at hb
      simp only [List.foldr, hb, hw]
      rfl
    | some b =>
      rw [hbb] at hb hbv
      simp only [List.foldr, hb, hw, hbv]
      rfl

/-- Witness for C3 at key `"conv1._packed_params"` with a bias present. -/
theorem claim_C3_registry_symbolic_handles_witness :
    get_weight_quant_params
        [("conv1".toList ++ "._packed_params".toList, biasBlob)] =
      some [("conv1".toList ++ "._packed_params".toList, biasBlobQP)] ∧
    biasBlobQP.weight_var = "conv1".toList ++ "_weight".toList ∧
    (biasBlob.bias.isSome →
      biasBlobQP.bias_var = some ("conv1".toList ++ "_bias".toList)) ∧
    (add_quant_params
        [("conv1".toList ++ "._packed_params".toList, biasBlobQP)]).map
        Prod.fst =
      ("conv1".toList ++ "_weight".toList) ::
        (if biasBlob.bias.isSome then ["conv1".toList ++ "_bias".toList]
         else []) :=
  claim_C3_registry_symbolic_handles "conv1".toList biasBlob biasBlobQP rfl

/-- Helper: along a first-input chain with no recognized operator kind,
resolution ends in an error (never loops, never silently returns). -/
lemma noRecognizedAncestor_resolution_fails :
    ∀ (n : TNode), noRecognizedAncestor n = true →
      ∃ msg, get_quant_param_for_input n = Except.error msg
  | .mk k [] => by
    intro h
    simp only [noRecognizedAncestor, Option.isNone_iff_eq_none] at h
    refine ⟨"No producer", ?_⟩
    unfold get_quant_param_for_input
    rw [h]
  | .mk k (arg :: rest) => by
    intro h
    simp only [noRecognizedAncestor, Bool.and_eq_true,
      Option.isNone_iff_eq_none] at h
    obtain ⟨hk, harg⟩ := h
    obtain ⟨msg, hmsg⟩ := noRecognizedAncestor_resolution_fails arg harg
    refine ⟨msg, ?_⟩
    unfold get_quant_param_for_input
    rw [hk]
    exact hmsg

/-- C7: the producer resolver is a total function on finite graphs
(defined by terminating recursion); a node whose kind is in the lookup table
resolves to its scale/zero-point operands; an unrecognized node recurses
through its first input only; a node with no inputs fails fatally; and a
graph with no recognizable quantize-producing ancestor along the first-input
chain yields an error rather than looping or silently returning. -/
theorem claim_C7_producer_resolver_search (k : String) (ins : List TNode) :
    (∀ i j scale zp, output_quant_param_indices k = some (i, j) →
      ins.get? i = some scale → ins.get? j = some zp →
      get_quant_param_for_input (TNode.mk k ins) = Except.ok (scale, zp)) ∧
    (∀ arg rest, output_quant_param_indices k = none → ins = arg :: rest →
      get_quant_param_for_input (TNode.mk k ins) =
        get_quant_param_for_input arg) ∧
    (output_quant_param_indices k = none → ins = [] →
      get_quant_param_for_input (TNode.mk k ins) =
        Except.error "No producer") ∧
    (∀ n : TNode, noRecognizedAncestor n = true →
      ∃ msg, get_quant_param_for_input n = Except.error msg) := by
  refine ⟨?_, ?_, ?_, noRecognizedAncestor_resolution_fails⟩
  · intro i j scale zp h1 h2 h3
    cases ins with
    | nil => simp at h2
    | cons arg rest =>
      unfold get_quant_param_for_input
      rw [h1]
      unfold resolveScaleZp
      simp only [List.get?_eq_getElem?] at h2 h3
      simp [h2, h3]
  · intro arg rest h1 h2
    subst h2
    conv_lhs => unfold get_quant_param_for_input
    rw [h1]
  · intro h1 h2
    subst h2
    unfold get_quant_param_for_input
    rw [h1]

/-- Witness for C7: an unrecognized node resolves through its first input to
the conv producer's operands 6 and 7, and an inputless unrecognized node
fails with the fatal "No producer" error. -/
theorem claim_C7_producer_resolver_search_witness :
    get_quant_param_for_input (TNode.mk "aten::flatten" [convProducer]) =
      Except.ok (TNode.mk "scale_const" [], TNode.mk "zp_const" []) ∧
    get_quant_param_for_input (TNode.mk "aten::flatten" []) =
      Except.error "No producer" := by
  constructor
  · rw [(claim_C7_producer_resolver_search "aten::flatten"
      [convProducer]).2.1 convProducer [] rfl rfl]
    exact (claim_C7_producer_resolver_search "quantized::conv2d"
      convResolveIns).1 6 7 (TNode.mk "scale_const" [])
      (TNode.mk "zp_const" []) rfl rfl rfl
  · exact (claim_C7_producer_resolver_search "aten::flatten" []).2.2.1 rfl rfl

/-- C8: for every quantized conv2d (with or without fused relu), when the
declared padding is non-zero in either spatial dimension the conversion pads
the input with the input's zero-point (not zero) as the pad fill value before
the affine convolution, and when the padding is zero in both dimensions the
data is fed to the convolution unchanged (no pad emitted). -/
theorem claim_C8_conv2d_zero_point_padding (with_relu : Bool)
    (I : ConvInputs) :
    (I.padding.1 ≠ 0 ∨ I.padding.2 ≠ 0 →
      conv2d_data_arg (quantized_conv2d_impl with_relu I) =
        some (RExpr.pad I.data
          [(0, 0), (0, 0), (I.padding.1, I.padding.1),
           (I.padding.2, I.padding.2)]
          ((I.input_zero_point : ℚ)))) ∧
    (I.padding.1 = 0 ∧ I.padding.2 = 0 →
      conv2d_data_arg (quantized_conv2d_impl with_relu I) = some I.data) := by
  constructor
  · intro h
    simp only [quantized_conv2d_impl]
    rw [if_pos h]
    rcases hbv : I.bias_var with _ | bv <;> simp only [hbv] <;> rfl
  · intro h
    simp only [quantized_conv2d_impl]
    rw [if_neg (by omega)]
    rcases hbv : I.bias_var with _ | bv <;> simp only [hbv] <;> rfl

/-- Witness for C8: with padding `(1, 1)` the convolution's data input is a
pad node filled with the input zero-point `128`; with padding `(0, 0)` it is
the raw input. -/
theorem claim_C8_conv2d_zero_point_padding_witness :
    conv2d_data_arg (quantized_conv2d_impl false convInpPad) =
      some (RExpr.pad (RExpr.evar "x") [(0, 0), (0, 0), (1, 1), (1, 1)]
        (((128 : ℤ) : ℚ))) ∧
    conv2d_data_arg (quantized_conv2d_impl false convInpNoPad) =
      some (RExpr.evar "x") :=
  ⟨(claim_C8_conv2d_zero_point_padding false convInpPad).1 (by decide),
   (claim_C8_conv2d_zero_point_padding false convInpNoPad).2 ⟨rfl, rfl⟩⟩

/-- C9: for every bounded-relu node, the conversion emits a clip of the
input tensor whose lower bound is the input's own zero-point and whose upper
bound is `clip(round(input_zero_point + 6.0 / input_scale), 0, 255)` — the
literal `6.0` quantized with the input's own scale and zero-point. -/
theorem claim_C9_relu6_clip (I : Relu6Inputs) :
    relu6_impl I =
      RExpr.clip I.data ((I.input_zero_point : ℚ))
        ((min 255 (max 0 (pythonRound ((I.input_zero_point : ℚ) +
          6 / I.input_scale))) : ℤ) : ℚ) := by
  simp only [relu6_impl, quantize_scalar]
  congr 2
  omega
